import Mathlib

/-!
Verification of `scripts/comparestandoffs.py` (jensenlab-tools): a shallow
embedding of the standoff-comparison script's data model and operations,
with theorems checking the natural-language specification against it.

Python machine model used throughout:
* Python `int` is `Int` (arbitrary precision, no overflow).
* Raised exceptions become `Except PyError`; the distinct Python exception
  classes become constructors of `PyError`.  The class `FormatError` is
  declared in the source but never raised; it is mirrored by the
  `formatError` constructor, likewise never produced by any function here.
* Logging calls (`warning`, `error`, `info`, `print`) are side effects; where
  a claim is about diagnostics they are modelled as explicit counters or
  string lists in the return value, otherwise they are dropped.
* Python `set`s of parsed record objects use object identity; each list
  element produced by parsing is a distinct object, so membership of such a
  set is modelled positionally (via `List.filter` over the original list).
-/

namespace CompareStandoffs

/-- Exception classes raised (or declared) by the script.  `formatError`
mirrors the source's `FormatError(Exception)` class, which is defined at
line 57 of `comparestandoffs.py` but never raised anywhere. -/
inductive PyError where
  | valueError (msg : String)
  | indexError (msg : String)
  | typeError (msg : String)
  | formatError (msg : String)
  | recursionError (msg : String)
deriving DecidableEq

deriving instance DecidableEq for Except

/-- The Python-exception class name of an `Except` outcome, `none` on
success.  Used to state which class of error a parse produced. -/
def errClass {α : Type} : Except PyError α → Option String
  | .ok _ => none
  | .error (.valueError _) => some "ValueError"
  | .error (.indexError _) => some "IndexError"
  | .error (.typeError _) => some "TypeError"
  | .error (.formatError _) => some "FormatError"
  | .error (.recursionError _) => some "RecursionError"

/-! ### String helpers (models of the Python `str` methods used) -/

/-- Model of `str.split(sep)` for a one-character separator: splits on every
occurrence, keeping empty parts (`"a\t\tb".split('\t') == ['a','','b']`). -/
def strSplitOnChar (sep : Char) (s : String) : List String :=
  (s.toList.splitOn sep).map (fun cs => String.mk cs)

/-- Model of `str.split(sep, 1)` (maxsplit one) followed by unpacking into
two variables: `none` when the separator does not occur (Python raises
`ValueError: not enough values to unpack`). -/
def splitFirst (sep : Char) (s : String) : Option (String × String) :=
  match strSplitOnChar sep s with
  | [] => none
  | [_] => none
  | x :: rest => some (x, String.intercalate (String.mk [sep]) rest)

/-- Decimal value of a digit list (most significant first). -/
def digitsVal (cs : List Char) : Nat :=
  cs.foldl (fun acc c => acc * 10 + (c.toNat - 48)) 0

/-- Model of Python `int(s)`: an optional minus sign followed by at least
one decimal digit; everything else fails (`ValueError`). -/
def py_int (s : String) : Option Int :=
  match s.toList with
  | [] => none
  | '-' :: rest =>
      if !rest.isEmpty && rest.all Char.isDigit then
        some (-(digitsVal rest : Int))
      else none
  | cs =>
      if cs.all Char.isDigit then some ((digitsVal cs : Int)) else none

/-! ### Type policy -/

/-- The module-level `TYPE_MAP` constant (lines 20-31 of the source). -/
def TYPE_MAP : List (String × String) :=
  [("cel", "Cell"), ("che", "Chemical"), ("dis", "Disease"),
   ("ggp", "Gene"), ("org", "Organism"),
   ("Chemical_compound", "Chemical"),
   ("Species", "Organism")]

/-- `maptype(type_)`: `TYPE_MAP.get(type_, type_)`. -/
def maptype (type_ : String) : String :=
  (TYPE_MAP.lookup type_).getD type_

/-! ### Record model -/

/-- A reference/grounding record (`Normalization` class, lines 94-113). -/
structure Norm where
  id : String
  type_ : String
  tb_id : String
  norm_id : String
  text : String
deriving DecidableEq

/-- A mention-span record (`Textbound` class, lines 61-91).  `start`/`end_`
are the parsed offsets; `normalizations` is filled by the linking pass of
`parse_standoff`. -/
structure Textbound where
  id : String
  type_ : String
  span : String
  text : String
  start : Int
  end_ : Int
  normalizations : List Norm
deriving DecidableEq

/-- First token of a fragment, as an integer: `int(f.split(' ')[0])`. -/
def fragStart (f : String) : Except PyError Int :=
  match strSplitOnChar ' ' f with
  | [] => .error (.indexError "list index out of range")
  | x :: _ =>
      match py_int x with
      | some i => .ok i
      | none => .error (.valueError x)

/-- Second token of a fragment, as an integer: `int(f.split(' ')[1])`. -/
def fragEnd (f : String) : Except PyError Int :=
  match (strSplitOnChar ' ' f).get? 1 with
  | some x =>
      match py_int x with
      | some i => .ok i
      | none => .error (.valueError x)
  | none => .error (.indexError "list index out of range")

/-- Sequential evaluation of `f` over a list, stopping at the first error:
the consumption order of the generator expressions inside the `min`/`max`
calls of `parse_span`. -/
def mapExcept (f : String → Except PyError Int) :
    List String → Except PyError (List Int)
  | [] => .ok []
  | x :: xs =>
      match f x with
      | .error e => .error e
      | .ok y =>
          match mapExcept f xs with
          | .error e => .error e
          | .ok ys => .ok (y :: ys)

/-- `Textbound.parse_span` (lines 76-85).  Result is the `(start, end)`
pair together with the number of `warning(...)` diagnostics emitted (one
for a multi-fragment span, zero otherwise). -/
def parse_span (span : String) : Except PyError ((Int × Int) × Nat) :=
  if !(span.toList.contains ';') then
    match strSplitOnChar ' ' span with
    | [a, b] =>
        match py_int a, py_int b with
        | some s, some e => .ok ((s, e), 0)
        | _, _ => .error (.valueError "invalid literal for int()")
    | _ => .error (.valueError "values to unpack")
  else
    match mapExcept fragStart (strSplitOnChar ';' span),
          mapExcept fragEnd (strSplitOnChar ';' span) with
    | .ok (s0 :: srest), .ok (e0 :: erest) =>
        .ok ((srest.foldl min s0, erest.foldl max e0), 1)
    | .ok [], _ => .error (.valueError "min() arg is an empty sequence")
    | .ok (_ :: _), .ok [] => .error (.valueError "max() arg is an empty sequence")
    | .error e, _ => .error e
    | .ok (_ :: _), .error e => .error e

/-- `Textbound.from_standoff` (lines 87-91): tab-split into three fields,
space-split the middle once, parse the span. -/
def Textbound.from_standoff (line : String) : Except PyError Textbound :=
  match strSplitOnChar '\t' line with
  | [id_, type_span, text] =>
      match splitFirst ' ' type_span with
      | some (type_, span) =>
          match parse_span span with
          | .ok (se, _) =>
              .ok ⟨id_, type_, span, text, se.1, se.2, []⟩
          | .error e => .error e
      | none => .error (.valueError "not enough values to unpack")
  | _ => .error (.valueError "values to unpack")

/-- `Normalization.from_standoff` (lines 109-113): tab-split into three
fields, space-split the middle into exactly three tokens. -/
def Norm.from_standoff (line : String) : Except PyError Norm :=
  match strSplitOnChar '\t' line with
  | [id_, type_ids, text] =>
      match strSplitOnChar ' ' type_ids with
      | [type_, tb_id, norm_id] => .ok ⟨id_, type_, tb_id, norm_id, text⟩
      | _ => .error (.valueError "values to unpack")
  | _ => .error (.valueError "values to unpack")

/-- One iteration of the line loop of `parse_standoff` (lines 119-136):
blank lines and lines with an unrecognised leading marker are skipped,
`T` lines are parsed as textbounds, `N` lines as normalizations; a parse
failure is logged and re-raised. -/
def parse_line (acc : List Textbound × List Norm) (l : String) :
    Except PyError (List Textbound × List Norm) :=
  match l.toList with
  | [] => .ok acc
  | c :: _ =>
      if l.toList.all Char.isWhitespace then .ok acc
      else if c = 'T' then
        match Textbound.from_standoff l with
        | .ok t => .ok (acc.1 ++ [t], acc.2)
        | .error e => .error e
      else if c = 'N' then
        match Norm.from_standoff l with
        | .ok n => .ok (acc.1, acc.2 ++ [n])
        | .error e => .error e
      else .ok acc

/-- The linking pass of `parse_standoff` (lines 138-147): `tb_by_id` maps
each id to the last textbound carrying it, and each normalization is
appended to its textbound's list (dropped when the id is unknown). -/
def attach_norms (tbs : List Textbound) (norms : List Norm) : List Textbound :=
  tbs.enum.map (fun p =>
    if (tbs.drop (p.1 + 1)).all (fun u => u.id != p.2.id) then
      { p.2 with normalizations := norms.filter (fun n => n.tb_id == p.2.id) }
    else p.2)

/-- `parse_standoff` applied to an already-split line list. -/
def parse_standoff_lines (lines : List String) : Except PyError (List Textbound) :=
  match lines.foldlM parse_line ([], []) with
  | .ok acc => .ok (attach_norms acc.1 acc.2)
  | .error e => .error e

/-- `parse_standoff` (lines 116-149): split the raw text into lines, run
the line loop, then attach normalizations. -/
def parse_standoff (ann : String) : Except PyError (List Textbound) :=
  parse_standoff_lines (strSplitOnChar '\n' ann)

/-! ### Options -/

/-- The comparison options produced by `argparser()`/`main()`: `retype` is
`None` or the parsed rule list, `filtertypes` is `None` or the parsed type
list, `limit` is `None` or the `-l` integer. -/
structure Options where
  filtertypes : Option (List String)
  limit : Option Int
  maptypes : Bool
  forcemap : Bool
  overlap : Bool
  retype : Option (List (String × String × List String))
  suffix : String
deriving DecidableEq

/-- The argparse defaults: no filters, no limit, no mapping, no forced
mapping, exact-span matching, no retype rules, suffix `.ann`. -/
def defaultOptions : Options :=
  { filtertypes := none, limit := none, maptypes := false, forcemap := false,
    overlap := false, retype := none, suffix := ".ann" }

/-- `options` with exact-span matching selected. -/
def exactMode (options : Options) : Options := { options with overlap := false }

/-- `options` with overlap matching selected. -/
def overlapMode (options : Options) : Options := { options with overlap := true }

/-! ### Type equivalence and candidate matching -/

/-- `types_match` (lines 156-180) without its print side effects: strict
equality when mapping is disabled, otherwise the four-way check through
`maptype`.  The text arguments only feed the log messages. -/
def types_match (type1 type2 text1 text2 : String) (options : Options) : Bool :=
  if !options.maptypes then type1 == type2
  else
    type1 == type2 || maptype type1 == type2 ||
    type1 == maptype type2 || maptype type1 == maptype type2

/-- The per-pair candidate condition of the list comprehensions at lines
216-230 of `compare_annotations`: exact span equality in default mode, the
boundary-inclusive one-directional overlap test in overlap mode, both
conjoined with `types_match`. -/
def isCandidate (options : Options) (a1 a2 : Textbound) : Bool :=
  if !options.overlap then
    a1.start == a2.start && a1.end_ == a2.end_ &&
      types_match a1.type_ a2.type_ a1.text a2.text options
  else
    (decide (a1.start ≤ a2.start) && decide (a1.end_ ≥ a2.start) ||
     decide (a1.start ≤ a2.end_) && decide (a1.end_ ≥ a2.end_)) &&
      types_match a1.type_ a2.type_ a1.text a2.text options

/-! ### Transform pipeline -/

/-- `filter_by_type` (lines 183-184). -/
def filter_by_type (anns : List Textbound) (filtered : List String) :
    List Textbound :=
  anns.filter (fun a => !(filtered.contains a.type_))

/-- `apply_type_mapping` (lines 187-190): replace each record's type by its
mapped form (identity fallback). -/
def apply_type_mapping (anns : List Textbound) (type_map : List (String × String)) :
    List Textbound :=
  anns.map (fun a => { a with type_ := (type_map.lookup a.type_).getD a.type_ })

/-- One rule application of the inner loop of `retype_by_norm` (lines
195-199): the record's current type `t` becomes the rule's target type when
it equals the rule's source type and some attached normalization's id lies
in the rule's id set. -/
def retype_rule_step (a : Textbound) (t : String)
    (rule : String × String × List String) : String :=
  if t == rule.1 && a.normalizations.any (fun n => rule.2.2.contains n.norm_id)
  then rule.2.1 else t

/-- `retype_by_norm` (lines 193-200): for each record, the rules are folded
over its (mutable) type in list order within a single pass. -/
def retype_by_norm (anns : List Textbound)
    (rules : List (String × String × List String)) : List Textbound :=
  anns.map (fun a => { a with type_ := rules.foldl (retype_rule_step a) a.type_ })

/-- The retype stage guard (`if options.retype:` at line 204): a Python
truthiness test, false for `None` and for an empty rule list. -/
def retypeStage : Option (List (String × String × List String)) →
    List Textbound → List Textbound
  | none, anns => anns
  | some r, anns => if r.isEmpty then anns else retype_by_norm anns r

/-- The filter stage guard (`if options.filtertypes:` at line 207). -/
def filterStage : Option (List String) → List Textbound → List Textbound
  | none, anns => anns
  | some fts, anns => if fts.isEmpty then anns else filter_by_type anns fts

/-- The force-map stage guard (`if options.forcemap:` at line 210). -/
def forcemapStage : Bool → List Textbound → List Textbound
  | false, anns => anns
  | true, anns => apply_type_mapping anns TYPE_MAP

/-- The pre-comparison stages at the head of `compare_annotations` (lines
204-212), in source order: retype, then filter, then force-map. -/
def applyTransforms (options : Options) (anns : List Textbound) :
    List Textbound :=
  forcemapStage options.forcemap
    (filterStage options.filtertypes (retypeStage options.retype anns))

/-! ### Statistics accumulator

The Python accumulator is `defaultdict(lambda: defaultdict(int))`; the
script only ever touches the buckets `metrics total`, `metrics <type>`,
`by type` and `doc-level`, which are modelled as the fields below. -/

/-- One `metrics ...` bucket: TP/FP/FN counters. -/
structure Counts where
  TP : Nat
  FP : Nat
  FN : Nat
deriving DecidableEq

/-- The `doc-level` bucket: the `match`, `mismatch`, `match-nonempty`,
`match-empty` and `TOTAL` counters. -/
structure DocCounts where
  matched : Nat
  mismatch : Nat
  matchNonempty : Nat
  matchEmpty : Nat
  total : Nat
deriving DecidableEq

/-- The running statistics mapping. -/
structure Stats where
  total : Counts
  byType : String → Counts
  matchedByType : String → Nat
  missedByType : String → Nat
  docLevel : DocCounts

/-- The fresh accumulator created by `compare` when none is supplied: every
counter reads zero. -/
def emptyStats : Stats :=
  { total := ⟨0, 0, 0⟩, byType := fun _ => ⟨0, 0, 0⟩,
    matchedByType := fun _ => 0, missedByType := fun _ => 0,
    docLevel := ⟨0, 0, 0, 0, 0⟩ }

/-- Whether `a1` has at least one candidate in `ann2` (the `if a2m:` test). -/
def has_candidate (options : Options) (ann2 : List Textbound)
    (a1 : Textbound) : Bool :=
  ann2.any (isCandidate options a1)

/-- Whether `a2` belongs to the `match2` set after the first loop: some
record of `ann1` lists it among its candidates.  (Membership of the Python
set is object identity; each list element is a distinct object.) -/
def matched_in_2 (options : Options) (ann1 : List Textbound)
    (a2 : Textbound) : Bool :=
  ann1.any (fun a1 => isCandidate options a1 a2)

/-- `compare_annotations` (lines 203-271), as a state transformer on the
accumulator: transforms are applied to both sides, then the two counting
loops and the doc-level verdict update run.  The printed per-record lines
and the printed score are side effects and are dropped. -/
def compare_annotations (ann1 ann2 : List Textbound) (options : Options)
    (stats : Stats) : Stats :=
  let ann1' := applyTransforms options ann1
  let ann2' := applyTransforms options ann2
  let match1 := ann1'.filter (has_candidate options ann2')
  let only1 := ann1'.filter (fun a1 => !(has_candidate options ann2' a1))
  let match2 := ann2'.filter (matched_in_2 options ann1')
  let only2 := ann2'.filter (fun a2 => !(matched_in_2 options ann1' a2))
  let mismatched := !only1.isEmpty || !only2.isEmpty
  let newTotal : Counts :=
    { TP := stats.total.TP + match1.length,
      FN := stats.total.FN + only1.length,
      FP := stats.total.FP + only2.length }
  let newByType : String → Counts := fun t =>
    { TP := (stats.byType t).TP + (match1.filter (fun a => a.type_ == t)).length,
      FN := (stats.byType t).FN + (only1.filter (fun a => a.type_ == t)).length,
      FP := (stats.byType t).FP + (only2.filter (fun a => a.type_ == t)).length }
  let newMatched : String → Nat := fun t =>
    stats.matchedByType t + (match1.filter (fun a => a.type_ == t)).length +
      (match1.map (fun a1 =>
        ((ann2'.filter (isCandidate options a1)).filter
          (fun a => a.type_ == t)).length)).sum
  let newMissed : String → Nat := fun t =>
    stats.missedByType t + (only1.filter (fun a => a.type_ == t)).length +
      (only2.filter (fun a => a.type_ == t)).length
  let newDoc : DocCounts :=
    { matched := stats.docLevel.matched + (if mismatched then 0 else 1),
      mismatch := stats.docLevel.mismatch + (if mismatched then 1 else 0),
      matchNonempty := stats.docLevel.matchNonempty +
        (if !mismatched && (!match1.isEmpty && !match2.isEmpty) then 1 else 0),
      matchEmpty := stats.docLevel.matchEmpty +
        (if !mismatched && !(!match1.isEmpty && !match2.isEmpty) then 1 else 0),
      total := stats.docLevel.total + 1 }
  { total := newTotal, byType := newByType, matchedByType := newMatched,
    missedByType := newMissed, docLevel := newDoc }

/-! ### Corpus loops and the comparison driver -/

/-- Model of `os.path.basename`: the part after the last `/`. -/
def basename (p : String) : String :=
  (strSplitOnChar '/' p).getLastD ""

/-- Model of `os.path.splitext(p)[1]`: the extension (with its dot) of the
basename, empty when the basename has no dot or only leading dots before
its last dot. -/
def splitext_ext (p : String) : String :=
  let cs := (basename p).toList
  let revTail := cs.reverse.takeWhile (fun c => c != '.')
  if revTail.length == cs.length then ""
  else if (cs.take (cs.length - revTail.length - 1)).all (fun c => c == '.')
  then ""
  else String.mk ('.' :: revTail.reverse)

/-- `is_sqlite_db` (lines 324-326). -/
def is_sqlite_db (path : String) : Bool :=
  splitext_ext (basename path) == ".sqlite"

/-- Pure model of the filesystem and of the two key-value stores, supplied
to the corpus loops in place of `os` calls, `open()` and `sqlitedict`. -/
structure FS where
  isFile : String → Bool
  isDir : String → Bool
  pathExists : String → Bool
  fileText : String → String
  dirList : String → List String
  dbItems : String → List (String × String)
  dbGet : String → String → Option String

/-- The early-termination test at lines 299-300 and 318-319: a limit is set
and the running `doc-level TOTAL` exceeds it. -/
def limitReached (options : Options) (stats : Stats) : Bool :=
  match options.limit with
  | some n => decide ((stats.docLevel.total : Int) > n)
  | none => false

/-- `compare_files` (lines 274-281): parse both files, compare.  A parse
error propagates. -/
def compare_files (fs : FS) (file1 file2 : String) (options : Options)
    (stats : Stats) : Except PyError Stats :=
  match parse_standoff (fs.fileText file1) with
  | .error e => .error e
  | .ok ann1 =>
      match parse_standoff (fs.fileText file2) with
      | .error e => .error e
      | .ok ann2 => .ok (compare_annotations ann1 ann2 options stats)

/-- The key loop of `compare_dbs` (lines 289-301): skip keys with the wrong
suffix, warn and skip keys missing from the second store, otherwise parse
and compare, returning early when the limit check fires.  Warnings are
collected in the second component. -/
def compare_dbs_go (fs : FS) (path2 : String) (options : Options) :
    List (String × String) → Stats → List String →
    Except PyError (Stats × List String)
  | [], stats, warns => .ok (stats, warns)
  | (key, val1) :: rest, stats, warns =>
      if splitext_ext key != options.suffix then
        compare_dbs_go fs path2 options rest stats warns
      else
        match fs.dbGet path2 key with
        | none =>
            compare_dbs_go fs path2 options rest stats
              (warns ++ [key ++ " not found in " ++ path2])
        | some val2 =>
            match parse_standoff val1 with
            | .error e => .error e
            | .ok ann1 =>
                match parse_standoff val2 with
                | .error e => .error e
                | .ok ann2 =>
                    let stats2 := compare_annotations ann1 ann2 options stats
                    if limitReached options stats2 then .ok (stats2, warns)
                    else compare_dbs_go fs path2 options rest stats2 warns

/-- `compare_dbs` (lines 284-302). -/
def compare_dbs (fs : FS) (path1 path2 : String) (options : Options)
    (stats : Stats) : Except PyError (Stats × List String) :=
  compare_dbs_go fs path2 options (fs.dbItems path1) stats []

/-- `sorted(list(set(os.listdir(dir1)) & set(os.listdir(dir2))))`. -/
def sortedCommonNames (fs : FS) (dir1 dir2 : String) : List String :=
  (((fs.dirList dir1).filter (fun n => (fs.dirList dir2).contains n)).dedup).mergeSort
    (fun a b => decide (a ≤ b))

/-- The name loop of `compare_dirs` (lines 309-321), parameterised by the
recursive call into `compare` (`cmp`).  Comparable names (subdirectories,
or files with the configured suffix) are compared, others skipped; the
limit check runs after every name.  A `None` result flowing back into the
loop would make the Python limit check raise `TypeError`; that path is
unreachable because the guard ensures the recursive call never falls
through. -/
def compare_dirs_go
    (cmp : String → String → Stats → Except PyError (Option Stats × List String))
    (fs : FS) (dir1 dir2 : String) (options : Options) :
    List String → Stats → List String → Except PyError (Stats × List String)
  | [], stats, warns => .ok (stats, warns)
  | name :: rest, stats, warns =>
      let path1 := dir1 ++ "/" ++ name
      let path2 := dir2 ++ "/" ++ name
      if fs.isDir path1 ||
         (fs.isFile path1 && splitext_ext name == options.suffix) then
        match cmp path1 path2 stats with
        | .error e => .error e
        | .ok (none, _) => .error (.typeError "NoneType is not subscriptable")
        | .ok (some stats2, ws) =>
            if limitReached options stats2 then .ok (stats2, warns ++ ws)
            else compare_dirs_go cmp fs dir1 dir2 options rest stats2 (warns ++ ws)
      else
        if limitReached options stats then .ok (stats, warns)
        else compare_dirs_go cmp fs dir1 dir2 options rest stats warns

/-- `compare` (lines 329-362), the comparison driver, with the recursion of
`compare_dirs` into `compare` bounded by `fuel` (the Python recursion-depth
limit).  The first component of a successful result is the statistics
mapping, or `none` for the driver's fall-through (no branch taken); the
second collects the driver's `warning(...)` diagnostics. -/
def compare_driver (fs : FS) : Nat → String → String → Options → Stats →
    Except PyError (Option Stats × List String)
  | 0, _, _, _, _ => .error (.recursionError "maximum recursion depth exceeded")
  | fuel + 1, path1, path2, options, stats =>
      if is_sqlite_db path1 then
        if is_sqlite_db path2 then
          match compare_dbs fs path1 path2 options stats with
          | .error e => .error e
          | .ok (s, ws) => .ok (some s, ws)
        else if !(fs.pathExists path2) then
          .ok (some stats, ["error: " ++ path2 ++ " does not exist"])
        else
          .ok (some stats, ["mismatch: " ++ path1 ++ " is DB, " ++ path2 ++ " is not"])
      else if fs.isFile path1 then
        if fs.isFile path2 then
          match compare_files fs path1 path2 options stats with
          | .error e => .error e
          | .ok s => .ok (some s, [])
        else if !(fs.pathExists path2) then
          .ok (some stats, ["error: " ++ path2 ++ " does not exist"])
        else
          .ok (some stats, ["mismatch: " ++ path1 ++ " is file, " ++ path2 ++ " is not"])
      else if fs.isDir path1 then
        if fs.isDir path2 then
          match compare_dirs_go
              (fun a b st => compare_driver fs fuel a b options st)
              fs path1 path2 options
              (sortedCommonNames fs path1 path2) stats [] with
          | .error e => .error e
          | .ok (s, ws) => .ok (some s, ws)
        else if !(fs.pathExists path2) then
          .ok (some stats, ["error: " ++ path2 ++ " does not exist"])
        else
          .ok (some stats, ["mismatch: " ++ path2 ++ " is file, " ++ path1 ++ " is not"])
      else
        .ok (none, [])

/-! ### Helper lemmas -/

/-- `types_match` does not read the `overlap` flag, so switching the span
mode leaves it unchanged. -/
theorem types_match_mode (t1 t2 x1 x2 : String) (options : Options) (b : Bool) :
    types_match t1 t2 x1 x2 { options with overlap := b } =
      types_match t1 t2 x1 x2 options := rfl

/-- The exact-span candidate condition with the mode flag forced off:
span equality on both endpoints plus type equivalence. -/
theorem isCandidate_exact (options : Options) (a1 a2 : Textbound) :
    isCandidate (exactMode options) a1 a2 =
      ((a1.start == a2.start && a1.end_ == a2.end_) &&
        types_match a1.type_ a2.type_ a1.text a2.text options) := rfl

/-- The overlap candidate condition with the mode flag forced on:
the one-directional boundary test plus type equivalence. -/
theorem isCandidate_overlap (options : Options) (a1 a2 : Textbound) :
    isCandidate (overlapMode options) a1 a2 =
      ((decide (a1.start ≤ a2.start) && decide (a1.end_ ≥ a2.start) ||
        decide (a1.start ≤ a2.end_) && decide (a1.end_ ≥ a2.end_)) &&
        types_match a1.type_ a2.type_ a1.text a2.text options) := rfl

/-- `types_match` is symmetric (swapping both the types and the texts). -/
theorem types_match_symm (t1 t2 x1 x2 : String) (options : Options) :
    types_match t1 t2 x1 x2 options = types_match t2 t1 x2 x1 options := by
  unfold types_match
  cases hm : options.maptypes <;> simp only [hm, Bool.not_true, Bool.not_false,
    Bool.false_eq_true, if_true, if_false]
  · exact Bool.eq_iff_iff.mpr (by simp only [beq_iff_eq]; exact eq_comm)
  · apply Bool.eq_iff_iff.mpr
    simp only [Bool.or_eq_true, beq_iff_eq]
    constructor
    · rintro (((h | h) | h) | h)
      · exact Or.inl (Or.inl (Or.inl h.symm))
      · exact Or.inl (Or.inr h.symm)
      · exact Or.inl (Or.inl (Or.inr h.symm))
      · exact Or.inr h.symm
    · rintro (((h | h) | h) | h)
      · exact Or.inl (Or.inl (Or.inl h.symm))
      · exact Or.inl (Or.inr h.symm)
      · exact Or.inl (Or.inl (Or.inr h.symm))
      · exact Or.inr h.symm

/-! ### Claims -/

/-- C3: the type-equivalence check is strict string equality when mapping
is disabled; when enabled it is the four-way disjunction through
`maptype`; and in both modes it is reflexive and symmetric. -/
theorem C3_types_equivalent (t t1 t2 text1 text2 : String) (options : Options) :
    (options.maptypes = false →
      types_match t1 t2 text1 text2 options = (t1 == t2)) ∧
    (options.maptypes = true →
      types_match t1 t2 text1 text2 options =
        (t1 == t2 || maptype t1 == t2 || t1 == maptype t2 ||
         maptype t1 == maptype t2)) ∧
    types_match t t text1 text2 options = true ∧
    types_match t1 t2 text1 text2 options =
      types_match t2 t1 text2 text1 options := by
  refine ⟨fun hm => by simp [types_match, hm],
    fun hm => by simp [types_match, hm], ?_,
    types_match_symm t1 t2 text1 text2 options⟩
  cases hm : options.maptypes <;> simp [types_match, hm]

/-- Witness: the C3 theorem applied at a concrete pair under the default
(mapping-disabled) options. -/
theorem C3_witness :
    types_match "Gene" "Organism" "x" "y" defaultOptions =
      ("Gene" == "Organism") :=
  (C3_types_equivalent "t" "Gene" "Organism" "x" "y" defaultOptions).1 rfl

/-- The C4 rule list: retype A to B, then B to C, both gated on reference
id 1. -/
def chainRules : List (String × String × List String) :=
  [("A", "B", ["1"]), ("B", "C", ["1"])]

/-- C4: retype rules are evaluated in list order per record in one pass, so
a record of type A carrying a normalization with id 1 is first retyped to B
by the first rule and then to C by the second. -/
theorem C4_retype_chaining (a : Textbound) (h1 : a.type_ = "A")
    (h2 : a.normalizations.any (fun n => n.norm_id == "1") = true) :
    (retype_by_norm [a] chainRules).map (fun x => x.type_) = ["C"] := by
  have hany :
      (a.normalizations.any fun n => (["1"] : List String).contains n.norm_id)
        = true := by
    obtain ⟨n, hn, hid⟩ := List.any_eq_true.mp h2
    have hn1 : n.norm_id = "1" := by simpa using hid
    exact List.any_eq_true.mpr ⟨n, hn, by rw [hn1]; decide⟩
  simp only [retype_by_norm, chainRules, List.map_cons, List.map_nil,
    List.foldl_cons, List.foldl_nil]
  unfold retype_rule_step
  simp only [h1, hany, Bool.and_true]
  simp

/-- A concrete record for the C4 witness. -/
def c4tb : Textbound :=
  ⟨"T1", "A", "0 5", "abcde", 0, 5, [⟨"N1", "Reference", "T1", "1", "x"⟩]⟩

/-- Witness: the C4 theorem applied to a concrete record. -/
theorem C4_witness :
    (retype_by_norm [c4tb] chainRules).map (fun x => x.type_) = ["C"] :=
  C4_retype_chaining c4tb rfl (by decide)

/-- A record whose parsed span is reversed (start 5, end 3), as produced by
`Textbound.from_standoff` on the line `T1<tab>Gene 5 3<tab>abc`. -/
def degenTb : Textbound := ⟨"T1", "Gene", "5 3", "abc", 5, 3, []⟩

/-- C2 counterexample: a record with a reversed span is an exact-mode
candidate for itself but not an overlap-mode candidate, so exact-mode
candidacy does not imply overlap-mode candidacy for every pair of
records. -/
theorem C2_counterexample :
    isCandidate (exactMode defaultOptions) degenTb degenTb = true ∧
    isCandidate (overlapMode defaultOptions) degenTb degenTb = false := by
  decide

/-- C2 (amended): for records whose set1-side span is well-formed
(start ≤ end), any exact-mode candidate is also an overlap-mode candidate
under the same type-equivalence settings. -/
theorem C2_exact_subset_overlap (a1 a2 : Textbound) (options : Options)
    (hwf : a1.start ≤ a1.end_)
    (hc : isCandidate (exactMode options) a1 a2 = true) :
    isCandidate (overlapMode options) a1 a2 = true := by
  rw [isCandidate_exact] at hc
  rw [isCandidate_overlap]
  simp only [Bool.and_eq_true, beq_iff_eq] at hc
  obtain ⟨⟨hs, he⟩, ht⟩ := hc
  simp only [Bool.and_eq_true, Bool.or_eq_true, decide_eq_true_eq]
  exact ⟨Or.inl ⟨le_of_eq hs, by omega⟩, ht⟩

/-- A concrete well-formed record for the C2 witness. -/
def c2tb : Textbound := ⟨"T1", "Gene", "0 5", "abcde", 0, 5, []⟩

/-- Witness: the amended C2 theorem applied to a concrete well-formed
record matching itself. -/
theorem C2_witness :
    isCandidate (overlapMode defaultOptions) c2tb c2tb = true :=
  C2_exact_subset_overlap c2tb c2tb defaultOptions (by decide) (by decide)

/-- Degenerate set1-side record for the C9 counterexample. -/
def c9degen1 : Textbound := ⟨"T1", "Gene", "10 0", "x", 10, 0, []⟩

/-- A record strictly containing `c9degen1`'s span. -/
def c9degen2 : Textbound := ⟨"T2", "Gene", "5 7", "y", 5, 7, []⟩

/-- C9 counterexample: `c9degen2` strictly contains `c9degen1` (5 < 10 and
0 < 7) with equivalent types, yet with the arguments swapped `c9degen1` is
still not an overlap-mode candidate, refuting the swapped-direction half of
the claim for arbitrary records. -/
theorem C9_counterexample :
    (decide (c9degen2.start < c9degen1.start) &&
     decide (c9degen1.end_ < c9degen2.end_) &&
     types_match c9degen1.type_ c9degen2.type_ c9degen1.text c9degen2.text
       defaultOptions) = true ∧
    isCandidate (overlapMode defaultOptions) c9degen2 c9degen1 = false := by
  decide

/-- C9 (amended): when a2's span strictly contains a1's span, the types are
equivalent, and a1's span is well-formed (start ≤ end), then a2 is not an
overlap-mode candidate for a1 while a1 is an overlap-mode candidate for a2
with the arguments swapped — the overlap check is asymmetric. -/
theorem C9_overlap_asymmetry (a1 a2 : Textbound) (options : Options)
    (hwf : a1.start ≤ a1.end_)
    (h1 : a2.start < a1.start) (h2 : a1.end_ < a2.end_)
    (ht : types_match a1.type_ a2.type_ a1.text a2.text options = true) :
    isCandidate (overlapMode options) a1 a2 = false ∧
    isCandidate (overlapMode options) a2 a1 = true := by
  have ht2 : types_match a2.type_ a1.type_ a2.text a1.text options = true :=
    (types_match_symm a2.type_ a1.type_ a2.text a1.text options).trans ht
  constructor
  · have e1 : decide (a1.start ≤ a2.start) = false := decide_eq_false (by omega)
    have e2 : decide (a1.end_ ≥ a2.end_) = false := decide_eq_false (by omega)
    rw [isCandidate_overlap]
    simp [e1, e2]
  · have e3 : decide (a2.start ≤ a1.start) = true := decide_eq_true (by omega)
    have e4 : decide (a2.end_ ≥ a1.start) = true := decide_eq_true (by omega)
    rw [isCandidate_overlap]
    simp [e3, e4, ht2]

/-- Concrete well-formed records for the C9 witness: a1 spans
offsets 2-5, a2 spans 0-9 and strictly contains it. -/
def c9tb1 : Textbound := ⟨"T1", "Gene", "2 5", "bcd", 2, 5, []⟩

/-- The containing record for the C9 witness. -/
def c9tb2 : Textbound := ⟨"T2", "Gene", "0 9", "abcdefghi", 0, 9, []⟩

/-- Witness: the amended C9 theorem applied to a concrete strictly
contained pair. -/
theorem C9_witness :
    isCandidate (overlapMode defaultOptions) c9tb1 c9tb2 = false ∧
    isCandidate (overlapMode defaultOptions) c9tb2 c9tb1 = true :=
  C9_overlap_asymmetry c9tb1 c9tb2 defaultOptions (by decide) (by decide)
    (by decide) (by decide)

/-- A fold of `min` never exceeds its initial value. -/
theorem foldl_min_le_init (l : List Int) (a : Int) : l.foldl min a ≤ a := by
  induction l generalizing a with
  | nil => exact le_refl a
  | cons b t ih => exact le_trans (ih (min a b)) (min_le_left a b)

/-- A fold of `max` never falls below its initial value. -/
theorem init_le_foldl_max (l : List Int) (a : Int) : a ≤ l.foldl max a := by
  induction l generalizing a with
  | nil => exact le_refl a
  | cons b t ih => exact le_trans (le_max_left a b) (ih (max a b))

/-- A fold of `min` is a lower bound of every list element. -/
theorem foldl_min_le_mem (l : List Int) :
    ∀ (a x : Int), x ∈ l → l.foldl min a ≤ x := by
  induction l with
  | nil => intro a x hx; exact absurd hx (List.not_mem_nil x)
  | cons b t ih =>
      intro a x hx
      rcases List.mem_cons.mp hx with rfl | hxt
      · exact le_trans (foldl_min_le_init t (min a x)) (min_le_right a x)
      · exact ih (min a b) x hxt

/-- A fold of `max` is an upper bound of every list element. -/
theorem mem_le_foldl_max (l : List Int) :
    ∀ (a x : Int), x ∈ l → x ≤ l.foldl max a := by
  induction l with
  | nil => intro a x hx; exact absurd hx (List.not_mem_nil x)
  | cons b t ih =>
      intro a x hx
      rcases List.mem_cons.mp hx with rfl | hxt
      · exact le_trans (le_max_right a x) (init_le_foldl_max t (max a x))
      · exact ih (max a b) x hxt

/-- A fold of `min` is attained: it is the initial value or a list
element. -/
theorem foldl_min_mem (l : List Int) :
    ∀ a : Int, l.foldl min a = a ∨ l.foldl min a ∈ l := by
  induction l with
  | nil => intro a; exact Or.inl rfl
  | cons b t ih =>
      intro a
      rcases ih (min a b) with h | h
      · rcases min_choice a b with hm | hm
        · exact Or.inl (h.trans hm)
        · refine Or.inr ?_
          show t.foldl min (min a b) ∈ b :: t
          rw [h, hm]
          exact List.mem_cons_self b t
      · exact Or.inr (List.mem_cons_of_mem b h)

/-- A fold of `max` is attained: it is the initial value or a list
element. -/
theorem foldl_max_mem (l : List Int) :
    ∀ a : Int, l.foldl max a = a ∨ l.foldl max a ∈ l := by
  induction l with
  | nil => intro a; exact Or.inl rfl
  | cons b t ih =>
      intro a
      rcases ih (max a b) with h | h
      · rcases max_choice a b with hm | hm
        · exact Or.inl (h.trans hm)
        · refine Or.inr ?_
          show t.foldl max (max a b) ∈ b :: t
          rw [h, hm]
          exact List.mem_cons_self b t
      · exact Or.inr (List.mem_cons_of_mem b h)

/-- A successful `mapExcept` run contains the value of `f` at every list
element. -/
theorem mapExcept_ok_mem (f : String → Except PyError Int) :
    ∀ (l : List String) (ys : List Int), mapExcept f l = .ok ys →
      ∀ x ∈ l, ∀ y, f x = .ok y → y ∈ ys := by
  intro l
  induction l with
  | nil =>
      intro ys _ x hx
      exact absurd hx (List.not_mem_nil x)
  | cons a t ih =>
      intro ys h x hx y hfy
      cases hfa : f a with
      | error e => simp [mapExcept, hfa] at h
      | ok b =>
          cases hr : mapExcept f t with
          | error e => simp [mapExcept, hfa, hr] at h
          | ok bs =>
              simp only [mapExcept, hfa, hr] at h
              have h2 := Except.ok.inj h
              subst h2
              rcases List.mem_cons.mp hx with rfl | hxt
              · rw [hfa] at hfy
                have hb : b = y := Except.ok.inj hfy
                exact hb ▸ List.mem_cons_self b bs
              · exact List.mem_cons_of_mem b (ih bs hr x hxt y hfy)

/-- Every value in a successful `mapExcept` run is the value of `f` at
some list element. -/
theorem mapExcept_ok_exists (f : String → Except PyError Int) :
    ∀ (l : List String) (ys : List Int), mapExcept f l = .ok ys →
      ∀ y ∈ ys, ∃ x ∈ l, f x = .ok y := by
  intro l
  induction l with
  | nil =>
      intro ys h y hy
      simp only [mapExcept] at h
      have h2 := Except.ok.inj h
      subst h2
      exact absurd hy (List.not_mem_nil y)
  | cons a t ih =>
      intro ys h y hy
      cases hfa : f a with
      | error e => simp [mapExcept, hfa] at h
      | ok b =>
          cases hr : mapExcept f t with
          | error e => simp [mapExcept, hfa, hr] at h
          | ok bs =>
              simp only [mapExcept, hfa, hr] at h
              have h2 := Except.ok.inj h
              subst h2
              rcases List.mem_cons.mp hy with rfl | hyt
              · exact ⟨a, List.mem_cons_self a t, hfa⟩
              · obtain ⟨x, hx, hfx⟩ := ih bs hr y hyt
                exact ⟨x, List.mem_cons_of_mem a hx, hfx⟩

/-- C5: a single-fragment span string splitting into two integer tokens s
and e with s ≤ e parses to the pair (s, e) with no diagnostic; every
multi-fragment span (one containing a semicolon) that parses successfully
emits exactly one diagnostic and returns exactly (minimum start across
fragments, maximum end across fragments) — the first component is a lower
bound of every fragment's start and is some fragment's start, the second
an upper bound of every fragment's end and some fragment's end;
concretely, span 10-20 yields (10, 20) and the two-fragment span
5-10;15-25 yields the enclosing pair (5, 25) with one diagnostic. -/
theorem C5_parse_span_spec :
    (∀ (span a b : String) (s e : Int), s ≤ e →
        span.toList.contains ';' = false →
        strSplitOnChar ' ' span = [a, b] →
        py_int a = some s → py_int b = some e →
        parse_span span = .ok ((s, e), 0)) ∧
    (∀ (span : String) (p : Int × Int) (w : Nat),
        span.toList.contains ';' = true →
        parse_span span = .ok (p, w) →
        w = 1 ∧
        (∀ f ∈ strSplitOnChar ';' span, ∀ s : Int,
            fragStart f = .ok s → p.1 ≤ s) ∧
        (∃ f ∈ strSplitOnChar ';' span, fragStart f = .ok p.1) ∧
        (∀ f ∈ strSplitOnChar ';' span, ∀ e : Int,
            fragEnd f = .ok e → e ≤ p.2) ∧
        (∃ f ∈ strSplitOnChar ';' span, fragEnd f = .ok p.2)) ∧
    parse_span "10 20" = .ok ((10, 20), 0) ∧
    parse_span "5 10;15 25" = .ok ((5, 25), 1) := by
  refine ⟨?_, ?_, by decide, by decide⟩
  · intro span a b s e _hle hc hsplit ha hb
    unfold parse_span
    rw [hc, hsplit]
    simp [ha, hb]
  · intro span p w hc hok
    unfold parse_span at hok
    rw [hc] at hok
    simp only [Bool.not_true, Bool.false_eq_true, if_false] at hok
    cases hss : mapExcept fragStart (strSplitOnChar ';' span) with
    | error e1 => rw [hss] at hok; simp at hok
    | ok ss =>
        cases hes : mapExcept fragEnd (strSplitOnChar ';' span) with
        | error e2 =>
            rw [hss, hes] at hok
            cases ss <;> simp at hok
        | ok es =>
            rw [hss, hes] at hok
            cases ss with
            | nil => simp at hok
            | cons s0 srest =>
                cases es with
                | nil => simp at hok
                | cons e0 erest =>
                    simp only [Except.ok.injEq, Prod.mk.injEq] at hok
                    obtain ⟨hp, hw⟩ := hok
                    subst hp
                    refine ⟨hw.symm, ?_, ?_, ?_, ?_⟩
                    · intro f hf s hfs
                      have hmem : s ∈ s0 :: srest :=
                        mapExcept_ok_mem fragStart _ _ hss f hf s hfs
                      rcases List.mem_cons.mp hmem with rfl | hmem'
                      · exact foldl_min_le_init srest s
                      · exact foldl_min_le_mem srest s0 s hmem'
                    · refine mapExcept_ok_exists fragStart _ _ hss _ ?_
                      show srest.foldl min s0 ∈ s0 :: srest
                      rcases foldl_min_mem srest s0 with h | h
                      · rw [h]; exact List.mem_cons_self s0 srest
                      · exact List.mem_cons_of_mem s0 h
                    · intro f hf e hfe
                      have hmem : e ∈ e0 :: erest :=
                        mapExcept_ok_mem fragEnd _ _ hes f hf e hfe
                      rcases List.mem_cons.mp hmem with rfl | hmem'
                      · exact init_le_foldl_max erest e
                      · exact mem_le_foldl_max erest e0 e hmem'
                    · refine mapExcept_ok_exists fragEnd _ _ hes _ ?_
                      show erest.foldl max e0 ∈ e0 :: erest
                      rcases foldl_max_mem erest e0 with h | h
                      · rw [h]; exact List.mem_cons_self e0 erest
                      · exact List.mem_cons_of_mem e0 h

/-- Witness: the first part of the C5 theorem applied to the concrete
single-fragment span 12-34. -/
theorem C5_witness : parse_span "12 34" = .ok ((12, 34), 0) :=
  C5_parse_span_spec.1 "12 34" "12" "34" 12 34 (by decide) (by decide)
    (by decide) (by decide) (by decide)

/-- A pair of key-value stores with three comparable documents (all empty,
hence trivially matching) for exercising the document-count limit. -/
def c6fs : FS :=
  { isFile := fun _ => false, isDir := fun _ => false,
    pathExists := fun _ => false, fileText := fun _ => "",
    dirList := fun _ => [],
    dbItems := fun p =>
      if p == "set1.sqlite" then
        [("d1.ann", ""), ("d2.ann", ""), ("d3.ann", "")]
      else [],
    dbGet := fun p k =>
      if p == "set2.sqlite" &&
         (k == "d1.ann" || k == "d2.ann" || k == "d3.ann") then some ""
      else none }

/-- Options with the document-count limit set to 1. -/
def c6options : Options := { defaultOptions with limit := some 1 }

/-- The `doc-level TOTAL` counter of a corpus-loop result. -/
def dbsDocTotal (r : Except PyError (Stats × List String)) : Option Nat :=
  match r with
  | .ok x => some x.1.docLevel.total
  | .error _ => none

/-- C6 evaluation at the failing input: with the limit set to 1 and three
comparable document pairs available, the key-value corpus loop compares
two documents (the guard is TOTAL strictly greater than the limit, checked
only after a comparison completes), not one as the option's help text
(`Only compare first N documents`) and the claim state. -/
theorem C6_limit_off_by_one :
    dbsDocTotal (compare_dbs c6fs "set1.sqlite" "set2.sqlite" c6options
      emptyStats) = some 2 := by
  decide

/-- An error raised by the line loop aborts the fold over the remaining
lines and propagates unchanged. -/
theorem foldlM_parse_line_error (ls1 : List String) :
    ∀ (init acc : List Textbound × List Norm) (ls2 : List String)
      (l : String) (e : PyError),
      List.foldlM parse_line init ls1 = .ok acc →
      parse_line acc l = .error e →
      List.foldlM parse_line init (ls1 ++ l :: ls2) = .error e := by
  induction ls1 with
  | nil =>
      intro init acc ls2 l e h1 h2
      simp only [List.foldlM_nil] at h1
      have hia : init = acc := by
        have : (Except.ok init : Except PyError (List Textbound × List Norm))
            = .ok acc := h1
        exact Except.ok.inj this
      subst hia
      simp only [List.nil_append, List.foldlM_cons, h2]
      rfl
  | cons x t ih =>
      intro init acc ls2 l e h1 h2
      simp only [List.foldlM_cons] at h1
      simp only [List.cons_append, List.foldlM_cons]
      cases hx : parse_line init x with
      | error e2 =>
          rw [hx] at h1
          exact absurd
            (show (Except.error e2 : Except PyError (List Textbound × List Norm))
              = .ok acc from h1) (by simp)
      | ok s =>
          rw [hx] at h1
          have h1' : List.foldlM parse_line s t = .ok acc := h1
          exact ih s acc ls2 l e h1' h2

/-- Whether an exception belongs to one of the two built-in classes the
parse stack can actually raise: ValueError (int conversion, tuple
unpacking) or IndexError (a fragment missing its end offset). -/
def isValueOrIndexError : PyError → Bool
  | .valueError _ => true
  | .indexError _ => true
  | .typeError _ => false
  | .formatError _ => false
  | .recursionError _ => false

/-- A failing `mapExcept` run fails at some list element, with the same
error. -/
theorem mapExcept_error (f : String → Except PyError Int) :
    ∀ (l : List String) (e : PyError), mapExcept f l = .error e →
      ∃ x ∈ l, f x = .error e := by
  intro l
  induction l with
  | nil => intro e h; simp [mapExcept] at h
  | cons a t ih =>
      intro e h
      cases hfa : f a with
      | error e2 =>
          simp only [mapExcept, hfa] at h
          have he : e2 = e := Except.error.inj h
          exact ⟨a, List.mem_cons_self a t, he ▸ hfa⟩
      | ok b =>
          cases hr : mapExcept f t with
          | error e2 =>
              simp only [mapExcept, hfa, hr] at h
              have he : e2 = e := Except.error.inj h
              obtain ⟨x, hx, hfx⟩ := ih e2 hr
              exact ⟨x, List.mem_cons_of_mem a hx, he ▸ hfx⟩
          | ok bs => simp [mapExcept, hfa, hr] at h

/-- An error equal to a raised ValueError is in the admissible class. -/
theorem isVOI_of_valueError {α : Type} (msg : String) (e : PyError)
    (h : (Except.error (PyError.valueError msg) : Except PyError α)
      = .error e) : isValueOrIndexError e = true := by
  have he := Except.error.inj h
  subst he
  rfl

/-- An error equal to a raised IndexError is in the admissible class. -/
theorem isVOI_of_indexError {α : Type} (msg : String) (e : PyError)
    (h : (Except.error (PyError.indexError msg) : Except PyError α)
      = .error e) : isValueOrIndexError e = true := by
  have he := Except.error.inj h
  subst he
  rfl

/-- A failing `fragStart` raises ValueError (bad int literal) or
IndexError. -/
theorem fragStart_error (f : String) (e : PyError)
    (h : fragStart f = .error e) : isValueOrIndexError e = true := by
  unfold fragStart at h
  split at h
  · exact isVOI_of_indexError _ e h
  · split at h
    · exact absurd h (by simp)
    · exact isVOI_of_valueError _ e h

/-- A failing `fragEnd` raises ValueError (bad int literal) or IndexError
(fragment without a second token). -/
theorem fragEnd_error (f : String) (e : PyError)
    (h : fragEnd f = .error e) : isValueOrIndexError e = true := by
  unfold fragEnd at h
  split at h
  · split at h
    · exact absurd h (by simp)
    · exact isVOI_of_valueError _ e h
  · exact isVOI_of_indexError _ e h

/-- A failing `parse_span` raises ValueError or IndexError. -/
theorem parse_span_error (span : String) (e : PyError)
    (h : parse_span span = .error e) : isValueOrIndexError e = true := by
  unfold parse_span at h
  split at h
  · split at h
    · split at h
      · exact absurd h (by simp)
      · exact isVOI_of_valueError _ e h
    · exact isVOI_of_valueError _ e h
  · cases hss : mapExcept fragStart (strSplitOnChar ';' span) with
    | error e1 =>
        rw [hss] at h
        simp only [Except.error.injEq] at h
        obtain ⟨x, -, hfx⟩ := mapExcept_error fragStart _ e1 hss
        exact h ▸ fragStart_error x e1 hfx
    | ok ss =>
        cases hes : mapExcept fragEnd (strSplitOnChar ';' span) with
        | error e2 =>
            rw [hss, hes] at h
            cases ss with
            | nil => exact isVOI_of_valueError _ e h
            | cons s0 srest =>
                simp only [Except.error.injEq] at h
                obtain ⟨x, -, hfx⟩ := mapExcept_error fragEnd _ e2 hes
                exact h ▸ fragEnd_error x e2 hfx
        | ok es =>
            rw [hss, hes] at h
            cases ss with
            | nil => exact isVOI_of_valueError _ e h
            | cons s0 srest =>
                cases es with
                | nil => exact isVOI_of_valueError _ e h
                | cons e0 erest => exact absurd h (by simp)

/-- A failing `Textbound.from_standoff` raises ValueError or IndexError. -/
theorem from_standoff_error (line : String) (e : PyError)
    (h : Textbound.from_standoff line = .error e) :
    isValueOrIndexError e = true := by
  unfold Textbound.from_standoff at h
  split at h
  · split at h
    · cases hsp : parse_span _ with
      | error e1 =>
          rw [hsp] at h
          simp only [Except.error.injEq] at h
          exact h ▸ parse_span_error _ e1 hsp
      | ok se => rw [hsp] at h; simp at h
    · exact isVOI_of_valueError _ e h
  · exact isVOI_of_valueError _ e h

/-- A failing `Norm.from_standoff` raises ValueError. -/
theorem norm_from_standoff_error (line : String) (e : PyError)
    (h : Norm.from_standoff line = .error e) :
    isValueOrIndexError e = true := by
  unfold Norm.from_standoff at h
  split at h
  · split at h
    · exact absurd h (by simp)
    · exact isVOI_of_valueError _ e h
  · exact isVOI_of_valueError _ e h

/-- A failing line-loop step raises ValueError or IndexError. -/
theorem parse_line_error (acc : List Textbound × List Norm) (l : String)
    (e : PyError) (h : parse_line acc l = .error e) :
    isValueOrIndexError e = true := by
  unfold parse_line at h
  split at h
  · simp_all
  · split at h
    · simp_all
    · split at h
      · cases ht : Textbound.from_standoff l with
        | error e1 =>
            rw [ht] at h
            simp only [Except.error.injEq] at h
            exact h ▸ from_standoff_error l e1 ht
        | ok tb => rw [ht] at h; simp at h
      · split at h
        · cases hn : Norm.from_standoff l with
          | error e1 =>
              rw [hn] at h
              simp only [Except.error.injEq] at h
              exact h ▸ norm_from_standoff_error l e1 hn
          | ok n => rw [hn] at h; simp at h
        · simp_all

/-- A failing line fold fails at some step, with the same error. -/
theorem foldlM_parse_line_err (ls : List String) :
    ∀ (init : List Textbound × List Norm) (e : PyError),
      List.foldlM parse_line init ls = .error e →
      ∃ acc l, parse_line acc l = .error e := by
  induction ls with
  | nil =>
      intro init e h
      simp only [List.foldlM_nil] at h
      exact absurd
        (show (Except.ok init : Except PyError (List Textbound × List Norm))
          = .error e from h) (by simp)
  | cons x t ih =>
      intro init e h
      simp only [List.foldlM_cons] at h
      cases hx : parse_line init x with
      | error e2 =>
          rw [hx] at h
          have he : e2 = e := Except.error.inj
            (show (Except.error e2 : Except PyError (List Textbound × List Norm))
              = .error e from h)
          exact ⟨init, x, he ▸ hx⟩
      | ok s =>
          rw [hx] at h
          exact ih s e h

/-- C7 counterexample: a span record with an unparsable offset fails with
a ValueError-class error, not a FormatError-class one — the source's
`FormatError` class is never raised. -/
theorem C7_counterexample :
    (errClass (parse_standoff "T1\tGene x 5\tfoo")).isSome = true ∧
    errClass (parse_standoff "T1\tGene x 5\tfoo") ≠ some "FormatError" := by
  decide

/-- C7 (amended): whenever parsing a document fails, the raised error is
of the built-in ValueError class (int conversion, tuple unpacking) or
IndexError class (a span fragment missing its end offset) — never the
FormatError class, which is defined in the source but never raised (first
conjunct, universal over all documents); a failing line aborts the
document's parse at that line and the error propagates unchanged to the
caller (second conjunct); concretely, an unparsable offset, a span record
with a missing field and a reference record with too few space-separated
tokens each fail with ValueError, and a span fragment without an end
offset fails with IndexError. -/
theorem C7_value_error_propagation :
    (∀ (lines : List String) (e : PyError),
        parse_standoff_lines lines = .error e →
        isValueOrIndexError e = true) ∧
    (∀ (ls1 ls2 : List String) (l : String)
        (acc : List Textbound × List Norm) (e : PyError),
        List.foldlM parse_line (([], []) : List Textbound × List Norm) ls1
          = .ok acc →
        parse_line acc l = .error e →
        parse_standoff_lines (ls1 ++ l :: ls2) = .error e) ∧
    errClass (parse_standoff "T1\tGene x 5\tfoo") = some "ValueError" ∧
    errClass (parse_standoff "T1\tGene 0 5") = some "ValueError" ∧
    errClass (parse_standoff "N1\tReference T1\tfoo") = some "ValueError" ∧
    errClass (parse_standoff "T1\tGene 5 10;7\tfoo") = some "IndexError" := by
  refine ⟨?_, ?_, by decide, by decide, by decide, by decide⟩
  · intro lines e h
    unfold parse_standoff_lines at h
    cases hf : List.foldlM parse_line
        (([], []) : List Textbound × List Norm) lines with
    | error e1 =>
        rw [hf] at h
        simp only [Except.error.injEq] at h
        obtain ⟨acc, l, hacc⟩ := foldlM_parse_line_err lines ([], []) e1 hf
        exact h ▸ parse_line_error acc l e1 hacc
    | ok acc => rw [hf] at h; simp at h
  · intro ls1 ls2 l acc e h1 h2
    unfold parse_standoff_lines
    rw [foldlM_parse_line_error ls1 ([], []) acc ls2 l e h1 h2]

/-- Witness: the propagation part of the C7 theorem applied to a concrete
two-line document whose second line has an unparsable offset. -/
theorem C7_witness :
    parse_standoff_lines (["T1\tGene 0 5\tabc"] ++ "T2\tGene x 9\tdef" :: []) =
      .error (.valueError "invalid literal for int()") :=
  C7_value_error_propagation.2.1 ["T1\tGene 0 5\tabc"] [] "T2\tGene x 9\tdef"
    ([⟨"T1", "Gene", "0 5", "abc", 0, 5, []⟩], [])
    (.valueError "invalid literal for int()") (by decide) (by decide)

/-- Splitting on a separator that does not occur returns the whole string
as the single part. -/
theorem strSplitOnChar_eq_single (c : Char) (s : String)
    (h : s.toList.contains c = false) : strSplitOnChar c s = [s] := by
  unfold strSplitOnChar
  have hmem : c ∉ s.toList := by simpa using h
  rw [List.splitOn, List.splitOnP_eq_single]
  · rfl
  · intro x hx hbe
    exact hmem (by simpa using (beq_iff_eq.mp hbe) ▸ hx)

/-- A successful `mapExcept` run on a nonempty list succeeds first on the
head. -/
theorem mapExcept_head_ok (f : String → Except PyError Int) (x : String)
    (xs : List String) (y : Int) (ys : List Int)
    (h : mapExcept f (x :: xs) = .ok (y :: ys)) : f x = .ok y := by
  cases hx : f x with
  | error e => simp [mapExcept, hx] at h
  | ok a =>
      cases hr : mapExcept f xs with
      | error e => simp [mapExcept, hx, hr] at h
      | ok bs =>
          simp only [mapExcept, hx, hr] at h
          have := Except.ok.inj h
          simp_all

/-- `retype_by_norm` only rewrites types: each output record shares its
offsets with an input record. -/
theorem retype_by_norm_offsets (anns : List Textbound)
    (rules : List (String × String × List String)) (a : Textbound)
    (ha : a ∈ retype_by_norm anns rules) :
    ∃ b ∈ anns, a.start = b.start ∧ a.end_ = b.end_ := by
  obtain ⟨b, hb, hba⟩ := List.mem_map.mp ha
  exact ⟨b, hb, by rw [← hba], by rw [← hba]⟩

/-- `apply_type_mapping` only rewrites types: each output record shares its
offsets with an input record. -/
theorem apply_type_mapping_offsets (anns : List Textbound)
    (tm : List (String × String)) (a : Textbound)
    (ha : a ∈ apply_type_mapping anns tm) :
    ∃ b ∈ anns, a.start = b.start ∧ a.end_ = b.end_ := by
  obtain ⟨b, hb, hba⟩ := List.mem_map.mp ha
  exact ⟨b, hb, by rw [← hba], by rw [← hba]⟩

/-- The retype stage preserves well-formedness of offsets. -/
theorem retypeStage_wf (ro : Option (List (String × String × List String)))
    (anns : List Textbound) (h : ∀ b ∈ anns, b.start ≤ b.end_) :
    ∀ a ∈ retypeStage ro anns, a.start ≤ a.end_ := by
  rcases ro with _ | r
  · simpa [retypeStage] using h
  · intro a ha
    simp only [retypeStage] at ha
    by_cases he : r.isEmpty = true
    · rw [if_pos he] at ha; exact h a ha
    · rw [if_neg he] at ha
      obtain ⟨b, hb, h1, h2⟩ := retype_by_norm_offsets anns r a ha
      rw [h1, h2]; exact h b hb

/-- The filter stage preserves well-formedness of offsets. -/
theorem filterStage_wf (fo : Option (List String)) (anns : List Textbound)
    (h : ∀ b ∈ anns, b.start ≤ b.end_) :
    ∀ a ∈ filterStage fo anns, a.start ≤ a.end_ := by
  rcases fo with _ | fts
  · simpa [filterStage] using h
  · intro a ha
    simp only [filterStage] at ha
    by_cases he : fts.isEmpty = true
    · rw [if_pos he] at ha; exact h a ha
    · rw [if_neg he] at ha
      exact h a (List.mem_filter.mp ha).1

/-- The force-map stage preserves well-formedness of offsets. -/
theorem forcemapStage_wf (b : Bool) (anns : List Textbound)
    (h : ∀ x ∈ anns, x.start ≤ x.end_) :
    ∀ a ∈ forcemapStage b anns, a.start ≤ a.end_ := by
  cases b
  · simpa [forcemapStage] using h
  · intro a ha
    simp only [forcemapStage] at ha
    obtain ⟨x, hx, h1, h2⟩ := apply_type_mapping_offsets anns TYPE_MAP a ha
    rw [h1, h2]; exact h x hx

/-- Whether a parse outcome satisfies the start ≤ end invariant (an error
outcome counts vacuously). -/
def wfStartEnd (r : Except PyError Textbound) : Bool :=
  match r with
  | .ok tb => decide (tb.start ≤ tb.end_)
  | .error _ => true

/-- C8 counterexample: the span record line `T1<tab>Gene 5 3<tab>abc` is
accepted by the parser without raising, yet the produced record has
start 5 greater than end 3 — the parser never validates the invariant. -/
theorem C8_counterexample :
    wfStartEnd (Textbound.from_standoff "T1\tGene 5 3\tabc") = false := by
  decide

/-- C8 (amended): a span accepted by `parse_span` satisfies start ≤ end
provided each of its fragments is itself well-formed (its first offset at
most its second) — the parser performs no validation of its own; and every
Transform Pipeline stage preserves offsets, so records that are
well-formed stay well-formed through the pipeline. -/
theorem C8_wellformed_invariant :
    (∀ (span : String) (p : Int × Int) (w : Nat),
        parse_span span = .ok (p, w) →
        (∀ f ∈ strSplitOnChar ';' span, ∀ s e : Int,
            fragStart f = .ok s → fragEnd f = .ok e → s ≤ e) →
        p.1 ≤ p.2) ∧
    (∀ (options : Options) (anns : List Textbound),
        (∀ b ∈ anns, b.start ≤ b.end_) →
        ∀ a ∈ applyTransforms options anns, a.start ≤ a.end_) := by
  constructor
  · intro span p w hok hfrag
    unfold parse_span at hok
    by_cases hc : span.toList.contains ';' = true
    · rw [hc] at hok
      simp only [Bool.not_true, Bool.false_eq_true, if_false] at hok
      rcases hfr : strSplitOnChar ';' span with _ | ⟨f0, frest⟩
      · rw [hfr] at hok; simp [mapExcept] at hok
      · rw [hfr] at hok
        rw [hfr] at hfrag
        cases hss : mapExcept fragStart (f0 :: frest) with
        | error e1 => rw [hss] at hok; simp at hok
        | ok ss =>
            cases hes : mapExcept fragEnd (f0 :: frest) with
            | error e2 =>
                rw [hss, hes] at hok
                cases ss <;> simp at hok
            | ok es =>
                rw [hss, hes] at hok
                cases ss with
                | nil => simp at hok
                | cons s0 srest =>
                    cases es with
                    | nil => simp at hok
                    | cons e0 erest =>
                        simp only [Except.ok.injEq, Prod.mk.injEq] at hok
                        obtain ⟨hp, -⟩ := hok
                        subst hp
                        have hf0s : fragStart f0 = .ok s0 :=
                          mapExcept_head_ok fragStart f0 frest s0 srest hss
                        have hf0e : fragEnd f0 = .ok e0 :=
                          mapExcept_head_ok fragEnd f0 frest e0 erest hes
                        have hle := hfrag f0 (List.mem_cons_self f0 frest)
                          s0 e0 hf0s hf0e
                        show srest.foldl min s0 ≤ erest.foldl max e0
                        calc srest.foldl min s0 ≤ s0 := foldl_min_le_init srest s0
                          _ ≤ e0 := hle
                          _ ≤ erest.foldl max e0 := init_le_foldl_max erest e0
    · have hc' : span.toList.contains ';' = false :=
        Bool.not_eq_true _ ▸ eq_false_of_ne_true hc
      rw [hc'] at hok
      simp only [Bool.not_false, if_true] at hok
      rcases hsp : strSplitOnChar ' ' span with _ | ⟨a, rest⟩ <;> rw [hsp] at hok
      · simp at hok
      · rcases rest with _ | ⟨b, rest2⟩
        · simp at hok
        · rcases rest2 with _ | ⟨x, rest3⟩
          · cases hpa : py_int a with
            | none => simp [hpa] at hok
            | some s =>
                cases hpb : py_int b with
                | none => simp [hpa, hpb] at hok
                | some e =>
                    simp only [hpa, hpb, Except.ok.injEq, Prod.mk.injEq] at hok
                    obtain ⟨hp, -⟩ := hok
                    subst hp
                    have hmem : span ∈ strSplitOnChar ';' span := by
                      rw [strSplitOnChar_eq_single ';' span hc']
                      exact List.mem_singleton.mpr rfl
                    have hfs : fragStart span = .ok s := by
                      unfold fragStart
                      rw [hsp]
                      simp [hpa]
                    have hfe : fragEnd span = .ok e := by
                      unfold fragEnd
                      rw [hsp]
                      simp [hpb]
                    have := hfrag span hmem s e hfs hfe
                    exact this
          · simp at hok
  · intro options anns h
    unfold applyTransforms
    exact forcemapStage_wf options.forcemap _
      (filterStage_wf options.filtertypes _ (retypeStage_wf options.retype anns h))

/-- Witness: the parse half of the amended C8 theorem applied to the
concrete single-fragment span 3-9. -/
theorem C8_witness : ((3 : Int), (9 : Int)).1 ≤ ((3 : Int), (9 : Int)).2 :=
  C8_wellformed_invariant.1 "3 9" (3, 9) 0 (by decide) (by
    intro f hf s e hs he
    have hsingle : strSplitOnChar ';' "3 9" = ["3 9"] := by decide
    rw [hsingle] at hf
    have hf' : f = "3 9" := List.mem_singleton.mp hf
    subst hf'
    have h3 : fragStart "3 9" = .ok 3 := by decide
    have h9 : fragEnd "3 9" = .ok 9 := by decide
    rw [h3] at hs
    rw [h9] at he
    have hs' : (3 : Int) = s := (Except.ok.inj hs)
    have he' : (9 : Int) = e := (Except.ok.inj he)
    omega)

/-- C1: comparing a record list against itself (two parsed copies of the
same raw document yield the same list) with the default options counts
every record as a true positive, no false positives or negatives, no
doc-level mismatch, and classifies the document as match-nonempty exactly
when it has records and as match-empty otherwise. -/
theorem C1_self_compare_default (ann : List Textbound) :
    (compare_annotations ann ann defaultOptions emptyStats).total.TP
      = ann.length ∧
    (compare_annotations ann ann defaultOptions emptyStats).total.FP = 0 ∧
    (compare_annotations ann ann defaultOptions emptyStats).total.FN = 0 ∧
    (compare_annotations ann ann defaultOptions emptyStats).docLevel.mismatch
      = 0 ∧
    (compare_annotations ann ann defaultOptions emptyStats).docLevel.matchNonempty
      = (if ann.isEmpty then 0 else 1) ∧
    (compare_annotations ann ann defaultOptions emptyStats).docLevel.matchEmpty
      = (if ann.isEmpty then 1 else 0) := by
  have htr : applyTransforms defaultOptions ann = ann := rfl
  have hself : ∀ a : Textbound, isCandidate defaultOptions a a = true := by
    intro a
    simp [isCandidate, defaultOptions, types_match]
  have hc1 : ∀ a ∈ ann, has_candidate defaultOptions ann a = true :=
    fun a ha => List.any_eq_true.mpr ⟨a, ha, hself a⟩
  have hc2 : ∀ a ∈ ann, matched_in_2 defaultOptions ann a = true :=
    fun a ha => List.any_eq_true.mpr ⟨a, ha, hself a⟩
  have hm1 : ann.filter (has_candidate defaultOptions ann) = ann :=
    List.filter_eq_self.mpr (fun a ha => by simp [hc1 a ha])
  have ho1 : ann.filter (fun a1 => !(has_candidate defaultOptions ann a1))
      = [] :=
    List.filter_eq_nil_iff.mpr (fun a ha => by simp [hc1 a ha])
  have hm2 : ann.filter (matched_in_2 defaultOptions ann) = ann :=
    List.filter_eq_self.mpr (fun a ha => by simp [hc2 a ha])
  have ho2 : ann.filter (fun a2 => !(matched_in_2 defaultOptions ann a2))
      = [] :=
    List.filter_eq_nil_iff.mpr (fun a ha => by simp [hc2 a ha])
  refine ⟨?_, ?_, ?_, ?_, ?_, ?_⟩ <;>
    simp only [compare_annotations, htr, hm1, ho1, hm2, ho2, emptyStats] <;>
    cases hE : ann.isEmpty <;> simp [hE]

/-- C10: when the first path is neither `.sqlite`-suffixed nor an existing
file nor an existing directory, the comparison driver falls through every
branch and returns no statistics mapping (`none`) and no diagnostic. -/
theorem C10_driver_returns_none (fuel : Nat) (fs : FS) (path1 path2 : String)
    (options : Options) (stats : Stats)
    (h1 : is_sqlite_db path1 = false) (h2 : fs.isFile path1 = false)
    (h3 : fs.isDir path1 = false) :
    compare_driver fs (fuel + 1) path1 path2 options stats = .ok (none, []) := by
  unfold compare_driver
  simp [h1, h2, h3]

/-- A filesystem with no files, directories or stores, for the C10
witness. -/
def emptyFS : FS :=
  { isFile := fun _ => false, isDir := fun _ => false,
    pathExists := fun _ => false, fileText := fun _ => "",
    dirList := fun _ => [], dbItems := fun _ => [],
    dbGet := fun _ _ => none }

/-- Witness: the C10 theorem applied to a nonexistent plain path. -/
theorem C10_witness :
    compare_driver emptyFS 1 "missing1" "missing2" defaultOptions emptyStats
      = .ok (none, []) :=
  C10_driver_returns_none 0 emptyFS "missing1" "missing2" defaultOptions
    emptyStats (by decide) rfl rfl

end CompareStandoffs
